import Mathlib

/-!
Shallow embedding of the core CRUD service (services/core/app): the Example
data model with its create/read/update schema variants, the five Example
route handlers plus the health check, the error handlers, and the Settings
validation logic.  Persistent storage is modelled as a list of rows plus an
autoincrement counter; each request is evaluated at a single abstract
instant (the parameter now : Nat), standing for the wall-clock reads that
happen during that request.  Machine-level concerns (connection pooling,
transactions) are outside the claims and are not modelled.
-/

/-- A persisted row of the examples table (models/example.py, class Example).
The name column is NOT NULL in the schema (the field is a required str), so a
committed row always carries a proper string; description is nullable. -/
structure ExampleRow where
  id : Nat
  name : String
  description : Option String
  created_at : Nat
  updated_at : Nat
deriving Repr, DecidableEq

/-- The relational store: the rows of the examples table in storage order,
and the next value of the autoincrement primary-key sequence (1 on a fresh
database). -/
structure Storage where
  rows : List ExampleRow
  nextId : Nat
deriving Repr, DecidableEq

/-- A JSON error body.  Both custom handlers emit detail and type keys;
the framework's built-in HTTPException handler emits only detail, which is
modelled by type = none (the key is absent from the body). -/
structure ErrorBody where
  detail : String
  type : Option String
deriving Repr, DecidableEq

/-- Body produced by the framework's built-in HTTPException handler: a JSON
object holding only the detail key. -/
def httpExceptionBody (detail : String) : ErrorBody :=
  { detail := detail, type := none }

/-- Request body of the create operation (models/example.py, ExampleCreate,
inheriting ExampleBase).  name is a required str with max_length 255; a
missing or JSON-null name is a request-validation failure, modelled by
name = none.  description is optional and nullable. -/
structure ExampleCreate where
  name : Option String
  description : Option String
deriving Repr, DecidableEq

/-- Request body of the update operation (models/example.py, ExampleUpdate).
Both fields are optional; pydantic distinguishes a field absent from the body
(outer none, excluded by exclude_unset) from a field explicitly set to JSON
null (some none). -/
structure ExampleUpdate where
  name : Option (Option String)
  description : Option (Option String)
deriving Repr, DecidableEq

/-- Result of model_dump with exclude_unset=True on an ExampleUpdate: the
fields that were explicitly present in the request body, in declaration
order, each with its (possibly null) value. -/
def ExampleUpdate.model_dump_exclude_unset (u : ExampleUpdate) :
    List (String × Option String) :=
  (match u.name with
   | none => []
   | some v => [("name", v)]) ++
  (match u.description with
   | none => []
   | some v => [("description", v)])

/-- Request-body validation of ExampleUpdate: name carries max_length 255
(an explicitly supplied non-null name longer than 255 is rejected by the
framework before the handler runs); description is unconstrained. -/
def validUpdateBody (u : ExampleUpdate) : Bool :=
  match u.name with
  | some (some s) => s.length ≤ 255
  | _ => true

/-- The ORM object for one fetched row while a request handler mutates it:
setattr can place any value, including null, in any field, so name is an
Option here even though the column is NOT NULL; the constraint is enforced
by the store at commit time. -/
structure SessionExample where
  id : Nat
  name : Option String
  description : Option String
  created_at : Nat
  updated_at : Nat
deriving Repr, DecidableEq

/-- View a persisted row as the session object handed to the handler. -/
def ExampleRow.toSession (r : ExampleRow) : SessionExample :=
  { id := r.id, name := some r.name, description := r.description,
    created_at := r.created_at, updated_at := r.updated_at }

/-- Dynamic field assignment, as in the handler loop
for field, value in update_data.items(): setattr(example, field, value).
Only name and description can appear in an ExampleUpdate dump. -/
def setattr (e : SessionExample) (field : String) (value : Option String) :
    SessionExample :=
  if field = "name" then { e with name := value }
  else if field = "description" then { e with description := value }
  else e

/-- Outcome of the create route (routes/example.py, create_example).
The route itself cannot fail once the body validates; request-body
validation failures are produced by the framework before the handler runs. -/
inductive CreateResult where
  | validationError
  | created (row : ExampleRow)
deriving Repr, DecidableEq

/-- HTTP status of a create outcome: 201 from the route decorator
status_code=HTTP_201_CREATED; a request-validation rejection is the
framework's 422 (the spec's 400-equivalent validation failure). -/
def CreateResult.status_code : CreateResult → Nat
  | .validationError => 422
  | .created _ => 201

/-- The create handler: validate the body, then insert a new row with the
next primary key and both timestamps taken at the request instant (the two
datetime.now default factories of the model), commit, and return the row. -/
def create_example (st : Storage) (body : ExampleCreate) (now : Nat) :
    CreateResult × Storage :=
  match body.name with
  | none => (.validationError, st)
  | some s =>
    if 255 < s.length then (.validationError, st)
    else
      let row : ExampleRow :=
        { id := st.nextId, name := s, description := body.description,
          created_at := now, updated_at := now }
      (.created row, { rows := st.rows ++ [row], nextId := st.nextId + 1 })

/-- The list handler (routes/example.py, list_examples):
select(Example).offset(skip).limit(limit) over the storage-defined order.
Defaults are skip = 0 and limit = 100, as in the route signature. -/
def list_examples (st : Storage) (skip : Nat := 0) (limit : Nat := 100) :
    List ExampleRow :=
  (st.rows.drop skip).take limit

/-- Outcome of the get route: 200 with the row, or an error response. -/
inductive GetResult where
  | ok (row : ExampleRow)
  | err (status : Nat) (body : ErrorBody)
deriving Repr, DecidableEq

/-- The get handler (routes/example.py, get_example): db.get by primary key;
when the row is absent it raises the framework HTTPException with status 404
and a formatted detail string, rendered by the framework's built-in handler
as a body holding only detail. -/
def get_example (st : Storage) (example_id : Nat) : GetResult :=
  match st.rows.find? (fun r => r.id == example_id) with
  | some row => .ok row
  | none =>
    .err 404 (httpExceptionBody
      ("Example with ID " ++ toString example_id ++ " not found"))

/-- Outcome of the update route: 200 with the updated row, a framework
request-validation rejection, or an error response (404 not found, or 400
integrity error from the registered IntegrityError handler). -/
inductive UpdateResult where
  | ok (row : ExampleRow)
  | validationError
  | err (status : Nat) (body : ErrorBody)
deriving Repr, DecidableEq

/-- Body emitted by integrity_error_handler (core/error_handlers.py). -/
def integrityErrorBody : ErrorBody :=
  { detail := "Database integrity error", type := some "IntegrityError" }

/-- The update handler (routes/example.py, update_example): fetch the row,
404 if absent; apply every field present in the body (exclude_unset keeps
explicitly-null fields) to the session object with setattr; commit.  The ORM
emits an UPDATE only when some column value actually changed; the onupdate
hook of the updated_at column fires on that UPDATE, and the store checks the
NOT NULL constraint on name, turning a null name into an IntegrityError that
the registered handler maps to a 400 response while the session rolls back. -/
def update_example (st : Storage) (example_id : Nat) (upd : ExampleUpdate)
    (now : Nat) : UpdateResult × Storage :=
  if validUpdateBody upd = false then (.validationError, st)
  else
    match st.rows.find? (fun r => r.id == example_id) with
    | none =>
      (.err 404 (httpExceptionBody
        ("Example with ID " ++ toString example_id ++ " not found")), st)
    | some row =>
      let obj := upd.model_dump_exclude_unset.foldl
        (fun e fv => setattr e fv.1 fv.2) row.toSession
      if obj.name = some row.name ∧ obj.description = row.description then
        (.ok row, st)
      else
        match obj.name with
        | none => (.err 400 integrityErrorBody, st)
        | some n =>
          let row' : ExampleRow :=
            { id := row.id, name := n, description := obj.description,
              created_at := row.created_at, updated_at := now }
          (.ok row',
           { st with
             rows := st.rows.map (fun r => if r.id == example_id then row' else r) })

/-- Health check payload (routes/health.py, HealthResponse). -/
structure HealthResponse where
  status : String
  service : String
deriving Repr, DecidableEq

/-- The health handler body: a fixed payload, no database dependency. -/
def health_check : HealthResponse :=
  { status := "healthy", service := "core" }

/-- The full health route response: the route declares no status_code, so the
framework default 200 applies. -/
def health_route : Nat × HealthResponse :=
  (200, health_check)

/-- Error taxonomy (core/exceptions.py): NotFoundError and ValidationError
are the subclasses of CoreException; the generic constructor stands for a
CoreException that is neither.  Each carries its message (str(exc)). -/
inductive CoreException where
  | generic (msg : String)
  | notFoundError (msg : String)
  | validationError (msg : String)
deriving Repr, DecidableEq

/-- Python str(exc): the message the exception was raised with. -/
def CoreException.str : CoreException → String
  | .generic m => m
  | .notFoundError m => m
  | .validationError m => m

/-- Python exc.__class__.__name__ for each exception kind. -/
def CoreException.className : CoreException → String
  | .generic _ => "CoreException"
  | .notFoundError _ => "NotFoundError"
  | .validationError _ => "ValidationError"

/-- core_exception_handler (core/error_handlers.py): starts from 500,
narrows to 404 for NotFoundError and 400 for ValidationError, and answers a
JSON body with detail = str(exc) and type = the class name. -/
def core_exception_handler (exc : CoreException) : Nat × ErrorBody :=
  let status_code : Nat :=
    match exc with
    | .notFoundError _ => 404
    | .validationError _ => 400
    | .generic _ => 500
  (status_code, { detail := exc.str, type := some exc.className })

/-- integrity_error_handler (core/error_handlers.py): ignores the database
error entirely and answers 400 with a fixed body. -/
def integrity_error_handler (_rawMessage : String) : Nat × ErrorBody :=
  (400, integrityErrorBody)

/-- Settings (config): the fields the claims depend on.  ENVIRONMENT is one
of the literals local, staging, production. -/
structure Settings where
  SECRET_KEY : String
  FRONTEND_HOST : String := "http://localhost:5173"
  ENVIRONMENT : String := "local"
  BACKEND_CORS_ORIGINS : List String := []
  POSTGRES_PASSWORD : String := ""
deriving Repr, DecidableEq

/-- Python str.rstrip applied with the slash character: removes every
trailing slash. -/
def rstripSlash (s : String) : String :=
  String.mk ((s.data.reverse.dropWhile (fun c => c == '/')).reverse)

/-- The all_cors_origins computed field (config): the explicit origin list
with trailing slashes stripped, then the frontend host appended as written
in the source, without passing through rstrip. -/
def Settings.all_cors_origins (s : Settings) : List String :=
  (s.BACKEND_CORS_ORIGINS.map rstripSlash) ++ [s.FRONTEND_HOST]

/-- Settings check of one secret (config, the check helper for default
secrets): when the value is the placeholder, warn in the local environment
(ok, carrying the warning) and raise a ValueError otherwise; a non-default
value passes silently.  The result is the raised message or the list of
emitted warnings. -/
def check_default_secret (env var_name value : String) :
    Except String (List String) :=
  if value = "changethis" then
    let message :=
      "The value of " ++ var_name ++
      " is \"changethis\", for security, please change it, at least for deployments."
    if env = "local" then .ok [message] else .error message
  else .ok []

/-- The model validator enforcing non-default secrets (config): checks
SECRET_KEY, then POSTGRES_PASSWORD; the first ValueError aborts Settings
construction. -/
def enforce_non_default_secrets (s : Settings) :
    Except String (List String) :=
  match check_default_secret s.ENVIRONMENT "SECRET_KEY" s.SECRET_KEY with
  | .error m => .error m
  | .ok w1 =>
    match check_default_secret s.ENVIRONMENT "POSTGRES_PASSWORD"
        s.POSTGRES_PASSWORD with
    | .error m => .error m
    | .ok w2 => .ok (w1 ++ w2)

/-! Helper lemmas shared by the claim theorems. -/

/-- Head of a dropWhile result never satisfies the dropped predicate. -/
theorem dropWhile_head?_not (p : Char → Bool) (l : List Char) (a : Char)
    (h : (l.dropWhile p).head? = some a) : p a = false := by
  induction l with
  | nil => simp [List.dropWhile] at h
  | cons x xs ih =>
    rw [List.dropWhile] at h
    cases hx : p x with
    | true => rw [hx] at h; exact ih h
    | false => rw [hx] at h; simp at h; rw [← h]; exact hx

/-- The name field of the session object after the setattr loop: the
explicitly supplied value when the body carries a name entry, the original
value otherwise. -/
theorem apply_dump_name (u : ExampleUpdate) (e : SessionExample) :
    (u.model_dump_exclude_unset.foldl (fun a fv => setattr a fv.1 fv.2) e).name =
      (match u.name with | none => e.name | some v => v) := by
  obtain ⟨n, d⟩ := u
  cases n <;> cases d <;> rfl

/-- The description field of the session object after the setattr loop. -/
theorem apply_dump_description (u : ExampleUpdate) (e : SessionExample) :
    (u.model_dump_exclude_unset.foldl
        (fun a fv => setattr a fv.1 fv.2) e).description =
      (match u.description with | none => e.description | some v => v) := by
  obtain ⟨n, d⟩ := u
  cases n <;> cases d <;> rfl

/-- The setattr loop never touches the id field. -/
theorem apply_dump_id (u : ExampleUpdate) (e : SessionExample) :
    (u.model_dump_exclude_unset.foldl (fun a fv => setattr a fv.1 fv.2) e).id =
      e.id := by
  obtain ⟨n, d⟩ := u
  cases n <;> cases d <;> rfl

/-- The setattr loop never touches the created_at field. -/
theorem apply_dump_created_at (u : ExampleUpdate) (e : SessionExample) :
    (u.model_dump_exclude_unset.foldl
        (fun a fv => setattr a fv.1 fv.2) e).created_at =
      e.created_at := by
  obtain ⟨n, d⟩ := u
  cases n <;> cases d <;> rfl

/-- C9: the health-check operation always returns exactly the payload with
status healthy and service core, with status code 200; it takes no storage
argument and is a constant of the embedding, so it is deterministic, reads
no dependency and has no side effects. -/
theorem C9_health_check_constant :
    health_route = (200, { status := "healthy", service := "core" }) := rfl

/-- C6: the error handlers map NotFoundError to 404, ValidationError to 400
and any other CoreException to 500, each with a body carrying detail equal
to the message and a type string equal to the class name; an integrity
violation is mapped to 400 with the fixed body, independent of the raw
database error text. -/
theorem C6_error_handler_mapping (exc : CoreException) (raw : String) :
    core_exception_handler exc =
      ((match exc with
        | .notFoundError _ => 404
        | .validationError _ => 400
        | .generic _ => 500),
       { detail := exc.str, type := some exc.className }) ∧
    (core_exception_handler exc).2.type ≠ none ∧
    integrity_error_handler raw =
      (400, { detail := "Database integrity error",
              type := some "IntegrityError" }) := by
  cases exc <;> exact ⟨rfl, by simp [core_exception_handler], rfl⟩

/-- C2, counterexample: getting the absent identifier 99999 does answer 404,
but the body is the framework HTTPException rendering, which carries only a
detail key; it does not carry type equal to the string NotFoundError, so the
claim as stated fails at this input. -/
theorem C2_counterexample :
    get_example { rows := [], nextId := 1 } 99999 =
      .err 404 { detail := "Example with ID 99999 not found", type := none } ∧
    ({ detail := "Example with ID 99999 not found",
       type := none } : ErrorBody).type ≠ some "NotFoundError" := by
  exact ⟨by decide, by decide⟩

/-- C2, amended: for every identifier not present in storage, get-by-id
answers 404 with a detail string naming the identifier; the body has no type
key, because the route raises the framework HTTPException rather than the
NotFoundError of the taxonomy. -/
theorem C2_amended_get_missing (st : Storage) (example_id : Nat)
    (h : st.rows.find? (fun r => r.id == example_id) = none) :
    get_example st example_id =
      .err 404 { detail := "Example with ID " ++ toString example_id ++
                           " not found",
                 type := none } := by
  simp only [get_example, h]
  rfl

/-- Witness for the amended C2 theorem at the empty store and id 99999. -/
theorem C2_amended_witness :
    get_example { rows := [], nextId := 1 } 99999 =
      .err 404 { detail := "Example with ID " ++ toString 99999 ++
                           " not found",
                 type := none } :=
  C2_amended_get_missing { rows := [], nextId := 1 } 99999 rfl

/-- C1, counterexample: a create request whose name is the empty string is
accepted (the schema bounds only the maximum length) and a row with the
empty name is persisted, so the claim that an empty-string name is rejected
with nothing persisted fails at this input. -/
theorem C1_counterexample :
    create_example { rows := [], nextId := 1 }
        { name := some "", description := none } 0 =
      (.created { id := 1, name := "", description := none,
                  created_at := 0, updated_at := 0 },
       { rows := [{ id := 1, name := "", description := none,
                    created_at := 0, updated_at := 0 }], nextId := 2 }) ∧
    (create_example { rows := [], nextId := 1 }
        { name := some "", description := none } 0).1 ≠ .validationError ∧
    (create_example { rows := [], nextId := 1 }
        { name := some "", description := none } 0).2.rows.length = 1 := by
  exact ⟨by decide, by decide, by decide⟩

/-- C1, amended: a create request whose name is missing or longer than 255
characters is rejected with a validation failure and persists no row; an
empty-string name, however, passes the length bound and is persisted. -/
theorem C1_amended_create_validation (st : Storage) (body : ExampleCreate)
    (now : Nat) :
    ((body.name = none ∨ ∃ s, body.name = some s ∧ 255 < s.length) →
      create_example st body now = (.validationError, st)) ∧
    (body.name = some "" →
      (create_example st body now).2.rows =
        st.rows ++ [{ id := st.nextId, name := "",
                      description := body.description,
                      created_at := now, updated_at := now }]) := by
  constructor
  · rintro (h | ⟨s, hs, hlen⟩)
    · simp [create_example, h]
    · simp [create_example, hs, hlen]
  · intro h
    simp [create_example, h]

/-- Witness for the amended C1 theorem: a body with a missing name is
rejected and the store is unchanged. -/
theorem C1_amended_witness :
    create_example { rows := [], nextId := 1 }
        { name := none, description := none } 0 =
      (.validationError, { rows := [], nextId := 1 }) :=
  (C1_amended_create_validation { rows := [], nextId := 1 }
    { name := none, description := none } 0).1 (Or.inl rfl)

/-- C4: a create request with a valid name answers 201 with the persisted
row appended to storage, the identifier drawn from the autoincrement
sequence (positive on any reachable store, where the sequence starts at 1),
and created_at equal to updated_at. -/
theorem C4_create_valid (st : Storage) (body : ExampleCreate) (now : Nat)
    (s : String) (hname : body.name = some s) (hlen : s.length ≤ 255)
    (hpos : 0 < st.nextId) :
    ∃ row,
      create_example st body now =
        (.created row, { rows := st.rows ++ [row], nextId := st.nextId + 1 }) ∧
      (CreateResult.created row).status_code = 201 ∧
      0 < row.id ∧
      row.created_at = row.updated_at := by
  have h255 : ¬ 255 < s.length := by omega
  refine ⟨{ id := st.nextId, name := s, description := body.description,
            created_at := now, updated_at := now }, ?_, rfl, hpos, rfl⟩
  simp [create_example, hname, h255]

/-- Witness for the C4 theorem on a fresh store. -/
theorem C4_witness :
    ∃ row,
      create_example { rows := [], nextId := 1 }
          { name := some "a", description := none } 7 =
        (.created row, { rows := [] ++ [row], nextId := 1 + 1 }) ∧
      (CreateResult.created row).status_code = 201 ∧
      0 < row.id ∧
      row.created_at = row.updated_at :=
  C4_create_valid { rows := [], nextId := 1 }
    { name := some "a", description := none } 7 "a" rfl (by decide) (by decide)

/-- C5: the list operation returns at most limit records, and its i-th
record is the record at position skip + i of the storage order, so the
first skip records are omitted; under the route defaults the bound is 100. -/
theorem C5_list_pagination (st : Storage) (skip limit i : Nat)
    (h : i < limit) :
    (list_examples st skip limit).length ≤ limit ∧
    (list_examples st skip limit)[i]? = st.rows[skip + i]? ∧
    (list_examples st).length ≤ 100 := by
  refine ⟨List.length_take_le _ _, ?_, List.length_take_le _ _⟩
  simp only [list_examples]
  rw [List.getElem?_take, if_pos h, List.getElem?_drop]

/-- Witness for the C5 theorem with three stored rows, skip 1, limit 2. -/
theorem C5_witness :
    (list_examples
        { rows := [{ id := 1, name := "r", description := none,
                     created_at := 0, updated_at := 0 },
                   { id := 2, name := "r", description := none,
                     created_at := 0, updated_at := 0 },
                   { id := 3, name := "r", description := none,
                     created_at := 0, updated_at := 0 }], nextId := 4 }
        1 2).length ≤ 2 ∧
    (list_examples
        { rows := [{ id := 1, name := "r", description := none,
                     created_at := 0, updated_at := 0 },
                   { id := 2, name := "r", description := none,
                     created_at := 0, updated_at := 0 },
                   { id := 3, name := "r", description := none,
                     created_at := 0, updated_at := 0 }], nextId := 4 }
        1 2)[0]? =
      ({ rows := [{ id := 1, name := "r", description := none,
                    created_at := 0, updated_at := 0 },
                  { id := 2, name := "r", description := none,
                    created_at := 0, updated_at := 0 },
                  { id := 3, name := "r", description := none,
                    created_at := 0, updated_at := 0 }],
         nextId := 4 } : Storage).rows[1 + 0]? ∧
    (list_examples
        { rows := [{ id := 1, name := "r", description := none,
                     created_at := 0, updated_at := 0 },
                   { id := 2, name := "r", description := none,
                     created_at := 0, updated_at := 0 },
                   { id := 3, name := "r", description := none,
                     created_at := 0, updated_at := 0 }],
          nextId := 4 }).length ≤ 100 :=
  C5_list_pagination _ 1 2 0 (by decide)

/-- C7: Settings construction raises a ValueError, aborting startup, when
the environment is staging or production and either SECRET_KEY or
POSTGRES_PASSWORD equals the literal changethis; in the local environment
construction succeeds, emitting a warning instead whenever a secret is at
the default. -/
theorem C7_default_secret_enforcement (s : Settings) :
    ((s.ENVIRONMENT = "staging" ∨ s.ENVIRONMENT = "production") →
      (s.SECRET_KEY = "changethis" ∨ s.POSTGRES_PASSWORD = "changethis") →
      ∃ msg, enforce_non_default_secrets s = .error msg) ∧
    (s.ENVIRONMENT = "local" →
      ∃ warnings, enforce_non_default_secrets s = .ok warnings ∧
        ((s.SECRET_KEY = "changethis" ∨ s.POSTGRES_PASSWORD = "changethis") →
          warnings ≠ [])) := by
  constructor
  · intro henv hsec
    have hlocal : ¬ s.ENVIRONMENT = "local" := by
      rcases henv with h | h <;> rw [h] <;> decide
    by_cases hk : s.SECRET_KEY = "changethis"
    · simp [enforce_non_default_secrets, check_default_secret, hk, hlocal]
    · have hpw : s.POSTGRES_PASSWORD = "changethis" := by
        rcases hsec with h | h
        · exact absurd h hk
        · exact h
      simp [enforce_non_default_secrets, check_default_secret, hk, hpw,
        hlocal]
  · intro henv
    by_cases hk : s.SECRET_KEY = "changethis" <;>
      by_cases hpw : s.POSTGRES_PASSWORD = "changethis" <;>
      simp [enforce_non_default_secrets, check_default_secret, hk, hpw, henv]

/-- Witness for the C7 theorem: production settings with the default secret
key fail construction. -/
theorem C7_witness :
    ∃ msg,
      enforce_non_default_secrets
        { SECRET_KEY := "changethis", FRONTEND_HOST := "http://localhost:5173",
          ENVIRONMENT := "production", BACKEND_CORS_ORIGINS := [],
          POSTGRES_PASSWORD := "x" } = .error msg :=
  (C7_default_secret_enforcement
    { SECRET_KEY := "changethis", FRONTEND_HOST := "http://localhost:5173",
      ENVIRONMENT := "production", BACKEND_CORS_ORIGINS := [],
      POSTGRES_PASSWORD := "x" }).1 (Or.inr rfl) (Or.inl rfl)

/-- C8, counterexample: with one explicit origin carrying a trailing slash
and a frontend host carrying a trailing slash, the derived list strips the
explicit origin but appends the frontend host unstripped, differing from
the claimed list in which every entry, the frontend host included, is
stripped. -/
theorem C8_counterexample :
    Settings.all_cors_origins
        { SECRET_KEY := "k", FRONTEND_HOST := "http://localhost:5173/",
          ENVIRONMENT := "local", BACKEND_CORS_ORIGINS := ["http://a.com/"],
          POSTGRES_PASSWORD := "" } =
      ["http://a.com", "http://localhost:5173/"] ∧
    Settings.all_cors_origins
        { SECRET_KEY := "k", FRONTEND_HOST := "http://localhost:5173/",
          ENVIRONMENT := "local", BACKEND_CORS_ORIGINS := ["http://a.com/"],
          POSTGRES_PASSWORD := "" } ≠
      (["http://a.com/"] ++ ["http://localhost:5173/"]).map rstripSlash := by
  exact ⟨by decide, by decide⟩

/-- C8, amended: the derived CORS origin list is the explicit origin list
with every trailing slash stripped from each of its entries, followed by
the frontend host exactly as configured, with no stripping applied to it. -/
theorem C8_amended_cors (s : Settings) :
    s.all_cors_origins =
      s.BACKEND_CORS_ORIGINS.map rstripSlash ++ [s.FRONTEND_HOST] ∧
    (∀ o ∈ s.BACKEND_CORS_ORIGINS.map rstripSlash,
      o.data.getLast? ≠ some '/') := by
  refine ⟨rfl, ?_⟩
  intro o ho
  rw [List.mem_map] at ho
  obtain ⟨x, _, rfl⟩ := ho
  intro hlast
  have hhead : ((x.data.reverse.dropWhile (fun c => c == '/')).head?) =
      some '/' := by
    rw [← List.getLast?_reverse]
    exact hlast
  have := dropWhile_head?_not (fun c => c == '/') x.data.reverse '/' hhead
  simp at this

/-- Witness for the amended C8 theorem: the stripped first origin no longer
ends in a slash. -/
theorem C8_amended_witness :
    (rstripSlash "http://a.com/").data.getLast? ≠ some '/' :=
  (C8_amended_cors
    { SECRET_KEY := "k", FRONTEND_HOST := "http://localhost:5173/",
      ENVIRONMENT := "local", BACKEND_CORS_ORIGINS := ["http://a.com/"],
      POSTGRES_PASSWORD := "" }).2 (rstripSlash "http://a.com/") (by decide)

/-- C3, counterexample: a PATCH with an empty body on an existing record
succeeds with 200, yet updated_at is not refreshed, because no column value
changed, no UPDATE statement is emitted and the onupdate hook never fires;
so the claim that updated_at is refreshed on every successful update fails
at this input. -/
theorem C3_counterexample :
    update_example
        { rows := [{ id := 1, name := "a", description := none,
                     created_at := 0, updated_at := 0 }], nextId := 2 }
        1 { name := none, description := none } 5 =
      (.ok { id := 1, name := "a", description := none,
             created_at := 0, updated_at := 0 },
       { rows := [{ id := 1, name := "a", description := none,
                    created_at := 0, updated_at := 0 }], nextId := 2 }) ∧
    ({ id := 1, name := "a", description := none,
       created_at := 0, updated_at := 0 } : ExampleRow).updated_at ≠ 5 := by
  exact ⟨by decide, by decide⟩

/-- C3, amended: on an existing record a successful update changes exactly
the fields explicitly supplied in the body, leaves every unsupplied field
and the identifier and created_at untouched, and refreshes updated_at
whenever the update actually changes some field value; an update that
changes nothing returns the record with updated_at unrefreshed. -/
theorem C3_amended_partial_update (st st' : Storage) (example_id now : Nat)
    (upd : ExampleUpdate) (row row' : ExampleRow)
    (hfind : st.rows.find? (fun r => r.id == example_id) = some row)
    (hok : update_example st example_id upd now = (.ok row', st')) :
    row'.id = row.id ∧
    row'.created_at = row.created_at ∧
    (upd.name = none → row'.name = row.name) ∧
    (upd.description = none → row'.description = row.description) ∧
    (∀ v, upd.name = some (some v) → row'.name = v) ∧
    (∀ v, upd.description = some v → row'.description = v) ∧
    ((row'.name ≠ row.name ∨ row'.description ≠ row.description) →
      row'.updated_at = now) ∧
    (row'.name = row.name ∧ row'.description = row.description →
      row' = row) := by
  have hname := apply_dump_name upd row.toSession
  have hdesc := apply_dump_description upd row.toSession
  simp only [update_example] at hok
  split at hok
  · simp at hok
  · simp only [hfind] at hok
    split at hok
    case isTrue hchg =>
      simp only [Prod.mk.injEq, UpdateResult.ok.injEq] at hok
      obtain ⟨h1, h2⟩ := hok
      subst h1
      refine ⟨rfl, rfl, fun _ => rfl, fun _ => rfl, ?_, ?_, ?_, fun _ => rfl⟩
      · intro v hv
        rw [hv] at hname
        have hname' : (upd.model_dump_exclude_unset.foldl
            (fun a fv => setattr a fv.1 fv.2) row.toSession).name =
            some v := hname
        have h3 := hchg.1
        rw [hname'] at h3
        injection h3 with h4
        exact h4.symm
      · intro v hv
        rw [hv] at hdesc
        have hdesc' : (upd.model_dump_exclude_unset.foldl
            (fun a fv => setattr a fv.1 fv.2) row.toSession).description =
            v := hdesc
        have h3 := hchg.2
        rw [hdesc'] at h3
        exact h3.symm
      · rintro (h | h) <;> exact absurd rfl h
    case isFalse hchg =>
      rcases hn : (upd.model_dump_exclude_unset.foldl
          (fun e fv => setattr e fv.1 fv.2) row.toSession).name with _ | n
      · rw [hn] at hok
        simp at hok
      · rw [hn] at hok
        simp only [Prod.mk.injEq, UpdateResult.ok.injEq] at hok
        obtain ⟨h1, h2⟩ := hok
        subst h1
        rw [hn] at hname
        refine ⟨rfl, rfl, ?_, ?_, ?_, ?_, fun _ => rfl, ?_⟩
        · intro h
          rw [h] at hname
          have hname' : some n = some row.name := hname
          injection hname'
        · intro h
          rw [h] at hdesc
          exact hdesc
        · intro v hv
          rw [hv] at hname
          have hname' : some n = some v := hname
          injection hname'
        · intro v hv
          rw [hv] at hdesc
          exact hdesc
        · rintro ⟨ha, hb⟩
          have ha' : n = row.name := ha
          have hb' : (upd.model_dump_exclude_unset.foldl
              (fun e fv => setattr e fv.1 fv.2) row.toSession).description =
              row.description := hb
          exact absurd ⟨by rw [hn, ha'], hb'⟩ hchg

/-- Witness for the amended C3 theorem: updating only name on an existing
record leaves description unchanged and sets updated_at to the request
instant. -/
theorem C3_amended_witness :
    ({ id := 1, name := "b", description := some "d", created_at := 0,
       updated_at := 5 } : ExampleRow).description = some "d" ∧
    ({ id := 1, name := "b", description := some "d", created_at := 0,
       updated_at := 5 } : ExampleRow).updated_at = 5 := by
  have h := C3_amended_partial_update
    { rows := [{ id := 1, name := "a", description := some "d",
                 created_at := 0, updated_at := 0 }], nextId := 2 }
    { rows := [{ id := 1, name := "b", description := some "d",
                 created_at := 0, updated_at := 5 }], nextId := 2 }
    1 5 { name := some (some "b"), description := none }
    { id := 1, name := "a", description := some "d", created_at := 0,
      updated_at := 0 }
    { id := 1, name := "b", description := some "d", created_at := 0,
      updated_at := 5 }
    (by decide) (by decide)
  exact ⟨h.2.2.2.1 rfl, h.2.2.2.2.2.2.1 (Or.inl (by decide))⟩

/-- C10, counterexample: an update body whose name is explicitly null is not
stored as a null name; the store rejects the commit (NOT NULL constraint on
the name column), the registered integrity handler answers 400 with the
fixed body, and the record keeps its previous name, so the claim that the
null is applied to the stored record fails at this input. -/
theorem C10_counterexample :
    update_example
        { rows := [{ id := 1, name := "a", description := none,
                     created_at := 0, updated_at := 0 }], nextId := 2 }
        1 { name := some none, description := none } 5 =
      (.err 400 { detail := "Database integrity error",
                  type := some "IntegrityError" },
       { rows := [{ id := 1, name := "a", description := none,
                    created_at := 0, updated_at := 0 }], nextId := 2 }) := by
  decide

/-- C10, amended: an explicitly-null name is indeed kept in the applied
update data (exclude_unset drops only unset fields) and is applied to the
session object, but committing it violates the NOT NULL constraint on name,
so the operation answers the 400 integrity-error response and storage is
unchanged; the null never reaches the stored record. -/
theorem C10_amended_null_name (st : Storage) (example_id now : Nat)
    (d : Option (Option String)) (row : ExampleRow)
    (hfind : st.rows.find? (fun r => r.id == example_id) = some row) :
    ("name", (none : Option String)) ∈
      (ExampleUpdate.mk (some none) d).model_dump_exclude_unset ∧
    update_example st example_id { name := some none, description := d }
        now = (.err 400 integrityErrorBody, st) := by
  constructor
  · cases d <;> simp [ExampleUpdate.model_dump_exclude_unset]
  · have hname := apply_dump_name { name := some none, description := d }
      row.toSession
    have hname' : (ExampleUpdate.mk (some none) d
        |>.model_dump_exclude_unset.foldl
          (fun a fv => setattr a fv.1 fv.2) row.toSession).name = none :=
      hname
    have hv : validUpdateBody { name := some none, description := d } =
        true := rfl
    simp only [update_example, hv, hfind, Bool.true_eq_false, if_false,
      hname']
    simp

/-- Witness for the amended C10 theorem on a one-row store. -/
theorem C10_amended_witness :
    ("name", (none : Option String)) ∈
      (ExampleUpdate.mk (some none) none).model_dump_exclude_unset ∧
    update_example
        { rows := [{ id := 1, name := "a", description := none,
                     created_at := 0, updated_at := 0 }], nextId := 2 }
        1 { name := some none, description := none } 5 =
      (.err 400 integrityErrorBody,
       { rows := [{ id := 1, name := "a", description := none,
                    created_at := 0, updated_at := 0 }], nextId := 2 }) :=
  C10_amended_null_name
    { rows := [{ id := 1, name := "a", description := none,
                 created_at := 0, updated_at := 0 }], nextId := 2 }
    1 5 none
    { id := 1, name := "a", description := none, created_at := 0,
      updated_at := 0 }
    rfl
